import Mathlib

/-!
Shallow embedding of the super-resolution pipeline in `src/main.py`
(`srcnn_predict`, `vdsr_predict`, `edsr_predict`, and
`SuperResolutionApp.upscale_image`), together with theorems settling the
frozen claims about the spec.

Conventions of the embedding:
* Pixel values of 8-bit display images are integers (`ℤ`); normalized
  float planes carry exact rationals (`ℚ`), so floating rounding is not
  modelled (the claims' tolerances are far above float32 rounding).
* An image is a height, a width and a total channel function; indices
  outside the dimensions carry junk values that no theorem depends on.
* External collaborators (OpenCV's cubic interpolation kernel, the
  TensorFlow model's forward pass, and the filesystem behind
  `cv2.imread`) are parameters of the pipeline functions: the claims
  quantify over them.
* Python exceptions that the source does not catch (the
  `AttributeError` raised when `cv2.imread` returns `None`, and numpy's
  `ValueError` raised by `np.concatenate` on mismatched shapes) are
  modelled as error values of the result type, alongside the error
  kinds named by the spec.
-/

namespace SRPipeline

/-- An 8-bit display image as decoded by `cv2.imread`: `height × width × 3`,
channel order B-G-R, integer pixel values (uint8 in the source; `ℤ` here,
with the range tracked by theorems where it matters). -/
structure Img8 where
  height : ℕ
  width : ℕ
  chan : ℕ → ℕ → ℕ → ℤ

/-- A floating-point image: `height × width × 3`, rational pixel values. -/
structure ImgF where
  height : ℕ
  width : ℕ
  chan : ℕ → ℕ → ℕ → ℚ

/-- A single-channel plane (`height × width`), as extracted by
`imgYCbCr[:, :, k]` and fed through `cv2.resize` / the model. -/
structure Plane where
  height : ℕ
  width : ℕ
  val : ℕ → ℕ → ℚ

/-- The interpolation kernel behind `cv2.resize(..., interpolation=cv2.INTER_CUBIC)`:
given the source plane, the target height and width, and target
coordinates, it produces the resampled value. OpenCV's bicubic kernel is
an external library routine; the pipeline functions take it as a
parameter, and no claim depends on the values it produces (only on the
output dimensions, which `cv2.resize` fixes to the requested target). -/
def Interp : Type := Plane → ℕ → ℕ → ℕ → ℕ → ℚ

/-- An inference backend: the composite of `tf.keras.models.load_model`
and `model.predict`, restricted to one `H×W×1` plane in and one
`H'×W'×1` plane out (the source's `reshape(1, h, w, 1)` / `[0]` are pure
shape bookkeeping). External collaborator, passed as a parameter. -/
def Backend : Type := Plane → Plane

/-- Failure modes of one upscale request. The first four constructors
are the spec's error kinds. In the source, `UnknownStrategy` is realized
as the `"Please choose a valid model."` warning branch of
`upscale_image`; `DecodeError`, `ShapeMismatch` and `BackendUnavailable`
are named by the spec but produced nowhere in the code. `attributeError`
models the uncaught Python `AttributeError` raised when `cv2.imread`
returns `None` and the code calls `.astype` / `.shape` on it;
`valueError` models numpy's uncaught `ValueError` raised by
`np.concatenate` on planes of mismatched shape; `noImageWarning` is the
`"Please choose an image first."` branch. -/
inductive PyError where
  | DecodeError
  | UnknownStrategy
  | ShapeMismatch
  | BackendUnavailable
  | attributeError
  | valueError
  | noImageWarning
  deriving DecidableEq, Repr

/-- Embeds `full_image.astype(np.float32) / 255.0`: normalize an 8-bit image to
floating values. -/
def normalize (a : Img8) : ImgF :=
  ⟨a.height, a.width, fun i j c => (a.chan i j c : ℚ) / 255⟩

/-- Embeds `cv2.cvtColor(img, cv2.COLOR_BGR2YCrCb)` on a float image, per
OpenCV's documented formulas (delta = 1/2 for floating images):
`Y = 0.299 R + 0.587 G + 0.114 B`, `Cr = (R − Y)·0.713 + 1/2`,
`Cb = (B − Y)·0.564 + 1/2`. Input channel order B-G-R; output order
Y, Cr, Cb. -/
def cvtBGR2YCrCb (a : ImgF) : ImgF :=
  ⟨a.height, a.width, fun i j c =>
    let B := a.chan i j 0
    let G := a.chan i j 1
    let R := a.chan i j 2
    let Y := 299/1000 * R + 587/1000 * G + 114/1000 * B
    if c = 0 then Y
    else if c = 1 then (R - Y) * (713/1000) + 1/2
    else if c = 2 then (B - Y) * (564/1000) + 1/2
    else 0⟩

/-- Embeds `cv2.cvtColor(img, cv2.COLOR_YCrCb2BGR)` on a float image, per
OpenCV's documented formulas: `R = Y + 1.403(Cr − 1/2)`,
`G = Y − 0.714(Cr − 1/2) − 0.344(Cb − 1/2)`, `B = Y + 1.773(Cb − 1/2)`.
Input order Y, Cr, Cb; output order B-G-R. -/
def cvtYCrCb2BGR (a : ImgF) : ImgF :=
  ⟨a.height, a.width, fun i j c =>
    let Y := a.chan i j 0
    let Cr := a.chan i j 1
    let Cb := a.chan i j 2
    if c = 0 then Y + (1773/1000) * (Cb - 1/2)
    else if c = 1 then Y - (714/1000) * (Cr - 1/2) - (344/1000) * (Cb - 1/2)
    else if c = 2 then Y + (1403/1000) * (Cr - 1/2)
    else 0⟩

/-- Embeds `img[:, :, c]`: extract one channel of a float image as a plane. -/
def channelPlane (a : ImgF) (c : ℕ) : Plane :=
  ⟨a.height, a.width, fun i j => a.chan i j c⟩

/-- Embeds `cv2.resize(p, (tw, th), interpolation=cv2.INTER_CUBIC)`: resample a
plane to the exact target size `th × tw` (OpenCV's `dsize` is
`(width, height)`; here the arguments are height first). The output
dimensions are the requested ones; the values come from the kernel. -/
def resizeTo (interp : Interp) (p : Plane) (th tw : ℕ) : Plane :=
  ⟨th, tw, fun i j => interp p th tw i j⟩

/-- Embeds `cv2.resize(p, None, fx=f, fy=f, interpolation=cv2.INTER_CUBIC)`:
resample a plane by an integer scale factor; for an integer factor the
output size is exactly `(height·f) × (width·f)`. -/
def resizeByFactor (interp : Interp) (p : Plane) (f : ℕ) : Plane :=
  resizeTo interp p (p.height * f) (p.width * f)

/-- Embeds `np.clip(p, 0, 1)` / `p.clip(0, 1)` on a plane. -/
def clip01 (p : Plane) : Plane :=
  ⟨p.height, p.width, fun i j => max 0 (min 1 (p.val i j))⟩

/-- Embeds `np.concatenate((y, cr, cb), axis=2)`: stack three planes into one
3-channel image. numpy requires all non-concatenation axes to agree and
raises `ValueError` otherwise; modelled as `Option`. -/
def concat3 (y cr cb : Plane) : Option ImgF :=
  if y.height = cr.height ∧ y.width = cr.width ∧
     y.height = cb.height ∧ y.width = cb.width then
    some ⟨y.height, y.width, fun i j c =>
      if c = 0 then y.val i j
      else if c = 1 then cr.val i j
      else cb.val i j⟩
  else none

/-- Embeds `(img * 255.0).clip(0, 255).astype(np.uint8)`: scale a float image
back to `[0,255]`, clip, and truncate to integers (after the clip every
value is nonnegative, so uint8 truncation is the floor). -/
def finalizeImg (a : ImgF) : Img8 :=
  ⟨a.height, a.width, fun i j c => ⌊max 0 (min 255 (a.chan i j c * 255))⌋⟩

/-! ### `srcnn_predict` (src/main.py lines 19–54), decomposed -/

/-- Lines 35–41 of `srcnn_predict`: normalize, convert to YCrCb, take
the Y plane, and resample it by the upscale factor with cubic
interpolation. This is the plane fed to the SRCNN backend. -/
def srcnn_prepared (interp : Interp) (img : Img8) (f : ℕ) : Plane :=
  resizeByFactor interp (channelPlane (cvtBGR2YCrCb (normalize img)) 0) f

/-- Line 43 of `srcnn_predict`: the backend's raw output on the prepared
luma plane (`srcnn_model.predict(...)[0]`). No clipping is applied. -/
def srcnn_Y (interp : Interp) (model : Backend) (img : Img8) (f : ℕ) : Plane :=
  model (srcnn_prepared interp img f)

/-- Lines 44–45 of `srcnn_predict`: the Cr plane resampled by the
factor (not to the inferred luma's shape). -/
def srcnn_Cr (interp : Interp) (img : Img8) (f : ℕ) : Plane :=
  resizeByFactor interp (channelPlane (cvtBGR2YCrCb (normalize img)) 1) f

/-- Lines 46–47 of `srcnn_predict`: the Cb plane resampled by the
factor (not to the inferred luma's shape). -/
def srcnn_Cb (interp : Interp) (img : Img8) (f : ℕ) : Plane :=
  resizeByFactor interp (channelPlane (cvtBGR2YCrCb (normalize img)) 2) f

/-- Line 48 of `srcnn_predict`: `np.concatenate((Y, Cr, Cb), axis=2)`.
`none` models the `ValueError` numpy raises when the shapes disagree. -/
def srcnn_HR_YCrCb (interp : Interp) (model : Backend) (img : Img8) (f : ℕ) :
    Option ImgF :=
  concat3 (srcnn_Y interp model img f) (srcnn_Cr interp img f) (srcnn_Cb interp img f)

/-- Embeds `srcnn_predict(image_path, upscale_factor)` (lines 19–54): decode,
decompose, resample luma by the factor, infer, resample chroma by the
factor, recompose, convert back to BGR, and finalize to 8-bit. Returns
the `(full_image, HR_image)` pair. `fs` models the filesystem behind
`cv2.imread` (`none` = the path cannot be decoded, in which case
`full_image` is `None` and line 35 raises `AttributeError`). -/
def srcnn_predict (interp : Interp) (model : Backend) (fs : String → Option Img8)
    (image_path : String) (f : ℕ) : Except PyError (Img8 × Img8) :=
  match fs image_path with
  | none => .error .attributeError
  | some full_image =>
    match srcnn_HR_YCrCb interp model full_image f with
    | none => .error .valueError
    | some hr => .ok (full_image, finalizeImg (cvtYCrCb2BGR hr))

/-! ### `vdsr_predict` (src/main.py lines 57–92), decomposed

The source duplicates `srcnn_predict` verbatim apart from the model
artifact path inside `load_model` (which is the `model` parameter
here); the embedding mirrors the duplication. -/

/-- Lines 73–79 of `vdsr_predict`: the luma plane resampled by the
factor, fed to the VDSR backend. -/
def vdsr_prepared (interp : Interp) (img : Img8) (f : ℕ) : Plane :=
  resizeByFactor interp (channelPlane (cvtBGR2YCrCb (normalize img)) 0) f

/-- Line 81 of `vdsr_predict`: the backend's raw output, unclipped. -/
def vdsr_Y (interp : Interp) (model : Backend) (img : Img8) (f : ℕ) : Plane :=
  model (vdsr_prepared interp img f)

/-- Lines 82–83 of `vdsr_predict`: Cr resampled by the factor. -/
def vdsr_Cr (interp : Interp) (img : Img8) (f : ℕ) : Plane :=
  resizeByFactor interp (channelPlane (cvtBGR2YCrCb (normalize img)) 1) f

/-- Lines 84–85 of `vdsr_predict`: Cb resampled by the factor. -/
def vdsr_Cb (interp : Interp) (img : Img8) (f : ℕ) : Plane :=
  resizeByFactor interp (channelPlane (cvtBGR2YCrCb (normalize img)) 2) f

/-- Line 86 of `vdsr_predict`: the concatenation of the three planes. -/
def vdsr_HR_YCrCb (interp : Interp) (model : Backend) (img : Img8) (f : ℕ) :
    Option ImgF :=
  concat3 (vdsr_Y interp model img f) (vdsr_Cr interp img f) (vdsr_Cb interp img f)

/-- Embeds `vdsr_predict(image_path, upscale_factor)` (lines 57–92). -/
def vdsr_predict (interp : Interp) (model : Backend) (fs : String → Option Img8)
    (image_path : String) (f : ℕ) : Except PyError (Img8 × Img8) :=
  match fs image_path with
  | none => .error .attributeError
  | some full_image =>
    match vdsr_HR_YCrCb interp model full_image f with
    | none => .error .valueError
    | some hr => .ok (full_image, finalizeImg (cvtYCrCb2BGR hr))

/-! ### `edsr_predict` (src/main.py lines 95–140), decomposed -/

/-- Lines 111–121 of `edsr_predict`: the luma plane resized with cubic
interpolation to `(width·factor, height·factor)` **before** the model
runs — `imgY_upscaled = cv2.resize(imgY, (width * upscale_factor,
height * upscale_factor), interpolation=cv2.INTER_CUBIC)` — and fed to
the backend as `LR_input_`. -/
def edsr_luma_input (interp : Interp) (img : Img8) (f : ℕ) : Plane :=
  resizeTo interp (channelPlane (cvtBGR2YCrCb (normalize img)) 0)
    (img.height * f) (img.width * f)

/-- Line 123 of `edsr_predict`: the backend's raw output. -/
def edsr_Y_raw (interp : Interp) (model : Backend) (img : Img8) (f : ℕ) : Plane :=
  model (edsr_luma_input interp img f)

/-- Line 125 of `edsr_predict`: `Y = Y.clip(0, 1)`. -/
def edsr_Y (interp : Interp) (model : Backend) (img : Img8) (f : ℕ) : Plane :=
  clip01 (edsr_Y_raw interp model img f)

/-- Line 128 of `edsr_predict`: Cr resized to the inferred (clipped)
luma plane's actual shape, `cv2.resize(..., (Y.shape[1], Y.shape[0]))`. -/
def edsr_Cr (interp : Interp) (model : Backend) (img : Img8) (f : ℕ) : Plane :=
  resizeTo interp (channelPlane (cvtBGR2YCrCb (normalize img)) 1)
    (edsr_Y interp model img f).height (edsr_Y interp model img f).width

/-- Line 129 of `edsr_predict`: Cb resized to the inferred luma's shape. -/
def edsr_Cb (interp : Interp) (model : Backend) (img : Img8) (f : ℕ) : Plane :=
  resizeTo interp (channelPlane (cvtBGR2YCrCb (normalize img)) 2)
    (edsr_Y interp model img f).height (edsr_Y interp model img f).width

/-- Line 132 of `edsr_predict`: the concatenation of the three planes. -/
def edsr_HR_YCrCb (interp : Interp) (model : Backend) (img : Img8) (f : ℕ) :
    Option ImgF :=
  concat3 (edsr_Y interp model img f) (edsr_Cr interp model img f)
    (edsr_Cb interp model img f)

/-- Embeds `edsr_predict(image_path, upscale_factor)` (lines 95–140). -/
def edsr_predict (interp : Interp) (model : Backend) (fs : String → Option Img8)
    (image_path : String) (f : ℕ) : Except PyError (Img8 × Img8) :=
  match fs image_path with
  | none => .error .attributeError
  | some full_image =>
    match edsr_HR_YCrCb interp model full_image f with
    | none => .error .valueError
    | some hr => .ok (full_image, finalizeImg (cvtYCrCb2BGR hr))

/-! ### `SuperResolutionApp.upscale_image` (src/main.py lines 196–209) -/

/-- Embeds `upscale_image(self)`: if an image path is set, dispatch on the
model-selector string to the matching predict function (each called with
its default factor 2); any other string hits the
`"Please choose a valid model."` warning branch and no predict function
runs, modelled as the spec's `UnknownStrategy`; with no image path the
`"Please choose an image first."` branch runs. -/
def upscale_image (interp : Interp) (srcnnModel vdsrModel edsrModel : Backend)
    (fs : String → Option Img8) (image_path : Option String) (selector : String) :
    Except PyError (Img8 × Img8) :=
  match image_path with
  | some path =>
    if selector = "srcnn" then srcnn_predict interp srcnnModel fs path 2
    else if selector = "edsr" then edsr_predict interp edsrModel fs path 2
    else if selector = "vdsr" then vdsr_predict interp vdsrModel fs path 2
    else .error .UnknownStrategy
  | none => .error .noImageWarning

/-! ### Concrete fixtures used by counterexamples and witnesses -/

/-- A trivial interpolation kernel (constant plane values); the claims
never depend on interpolated values, only on dimensions. -/
def constInterp : Interp := fun _ _ _ _ _ => 1/2

/-- A backend that returns its input unchanged (shape-preserving). -/
def idBackend : Backend := fun p => p

/-- A backend that always returns a `3 × 3` plane, regardless of its
input shape: a stub violating the shape-preservation contract. -/
def stub3x3Backend : Backend := fun _ => ⟨3, 3, fun _ _ => 1/2⟩

/-- A shape-preserving backend whose output values are the constant 2,
outside `[0,1]`. -/
def hotBackend : Backend := fun p => ⟨p.height, p.width, fun _ _ => 2⟩

/-- A concrete `1 × 1` mid-gray test image. -/
def testImg : Img8 := ⟨1, 1, fun _ _ _ => 128⟩

/-- A filesystem with the test image at `"img.png"`. -/
def testFs : String → Option Img8 := fun p => if p = "img.png" then some testImg else none

/-- An empty filesystem: every path fails to decode. -/
def emptyFs : String → Option Img8 := fun _ => none

/-- A concrete `1 × 1` normalized mid-gray float image, every channel `1/2`. -/
def halfImgF : ImgF := ⟨1, 1, fun _ _ _ => 1/2⟩

/-- The upscaled image produced by a concrete successful run of
`upscale_image` on the test fixtures (a `0 × 0` placeholder in the
impossible error case). -/
def testRunImage : Img8 :=
  match upscale_image constInterp idBackend idBackend idBackend testFs
      (some "img.png") "srcnn" with
  | .ok p => p.2
  | .error _ => ⟨0, 0, fun _ _ _ => 0⟩

/-! ## Theorems -/

/-- Every pixel `finalizeImg` produces lies in `[0, 255]`. -/
theorem finalizeImg_chan_mem (a : ImgF) (i j c : ℕ) :
    0 ≤ (finalizeImg a).chan i j c ∧ (finalizeImg a).chan i j c ≤ 255 := by
  constructor
  · exact Int.le_floor.mpr (by exact_mod_cast le_max_left 0 _)
  · have h : max 0 (min 255 (a.chan i j c * 255)) ≤ (255 : ℚ) :=
      max_le (by norm_num) (min_le_left _ _)
    calc (finalizeImg a).chan i j c ≤ ⌊(255 : ℚ)⌋ := Int.floor_le_floor h
    _ = 255 := by norm_num

/-- The map `finalizeImg` keeps the image dimensions. -/
theorem finalizeImg_height (a : ImgF) : (finalizeImg a).height = a.height := rfl

/-- If `srcnn_predict` succeeds, the upscaled image is `finalizeImg` of
the recombined BGR image, and the original is the decoded input. -/
theorem srcnn_predict_ok_iff (interp : Interp) (model : Backend)
    (fs : String → Option Img8) (path : String) (f : ℕ) (o u : Img8)
    (h : srcnn_predict interp model fs path f = .ok (o, u)) :
    ∃ img hr, fs path = some img ∧ srcnn_HR_YCrCb interp model img f = some hr ∧
      o = img ∧ u = finalizeImg (cvtYCrCb2BGR hr) := by
  unfold srcnn_predict at h
  cases hfs : fs path with
  | none => rw [hfs] at h; exact absurd h (by simp)
  | some img =>
    rw [hfs] at h
    dsimp only at h
    cases hhr : srcnn_HR_YCrCb interp model img f with
    | none => rw [hhr] at h; exact absurd h (by simp)
    | some hr =>
      rw [hhr] at h
      refine ⟨img, hr, rfl, hhr, ?_, ?_⟩
      · exact (Prod.mk.injEq .. ▸ (Except.ok.injEq .. ▸ h)).1.symm
      · exact (Prod.mk.injEq .. ▸ (Except.ok.injEq .. ▸ h)).2.symm

/-- Same inversion for `edsr_predict`. -/
theorem edsr_predict_ok_iff (interp : Interp) (model : Backend)
    (fs : String → Option Img8) (path : String) (f : ℕ) (o u : Img8)
    (h : edsr_predict interp model fs path f = .ok (o, u)) :
    ∃ img hr, fs path = some img ∧ edsr_HR_YCrCb interp model img f = some hr ∧
      o = img ∧ u = finalizeImg (cvtYCrCb2BGR hr) := by
  unfold edsr_predict at h
  cases hfs : fs path with
  | none => rw [hfs] at h; exact absurd h (by simp)
  | some img =>
    rw [hfs] at h
    dsimp only at h
    cases hhr : edsr_HR_YCrCb interp model img f with
    | none => rw [hhr] at h; exact absurd h (by simp)
    | some hr =>
      rw [hhr] at h
      refine ⟨img, hr, rfl, hhr, ?_, ?_⟩
      · exact (Prod.mk.injEq .. ▸ (Except.ok.injEq .. ▸ h)).1.symm
      · exact (Prod.mk.injEq .. ▸ (Except.ok.injEq .. ▸ h)).2.symm

/-- When the decode succeeds and the three planes concatenate,
`srcnn_predict` returns the decoded original and the finalized
recombined image. -/
theorem srcnn_predict_eq_ok (interp : Interp) (model : Backend)
    (fs : String → Option Img8) (path : String) (img : Img8) (hr : ImgF) (f : ℕ)
    (hfs : fs path = some img) (hhr : srcnn_HR_YCrCb interp model img f = some hr) :
    srcnn_predict interp model fs path f = .ok (img, finalizeImg (cvtYCrCb2BGR hr)) := by
  unfold srcnn_predict
  rw [hfs]
  dsimp only
  rw [hhr]

/-- Claim C10 (confirmed): `srcnn_predict` and `vdsr_predict` compute
the same function up to the model artifact loaded — run with the same
interpolation kernel, inference backend, filesystem, image path and
factor, they return identical `(original, upscaled)` results. The two
source functions are verbatim duplicates apart from the `load_model`
path, which is the `model` parameter here. -/
theorem srcnn_vdsr_same_function (interp : Interp) (model : Backend)
    (fs : String → Option Img8) (path : String) (f : ℕ) :
    srcnn_predict interp model fs path f = vdsr_predict interp model fs path f := rfl

/-- Claim C1 (counterexample): for a concrete `1 × 1` image and factor 2,
the plane `edsr_predict` feeds to its inference backend is the luma
plane already resampled to `2 × 2` — not the native-resolution (`1 × 1`)
luma plane — so `prepareLuma` for the EDSR strategy is not the
identity. -/
theorem edsr_prepare_not_identity :
    (edsr_luma_input constInterp testImg 2).height = 2 ∧
    (channelPlane (cvtBGR2YCrCb (normalize testImg)) 0).height = 1 ∧
    edsr_luma_input constInterp testImg 2 ≠
      channelPlane (cvtBGR2YCrCb (normalize testImg)) 0 := by
  refine ⟨rfl, rfl, fun h => ?_⟩
  exact absurd (congrArg Plane.height h) (by decide)

/-- Claim C1 (amended): for the EDSR strategy, the luma plane fed to the
backend is the native luma plane resampled by cubic interpolation to
factor×original size — the same preparation as the PreUpscaledLuma
strategies perform — not the identity. -/
theorem edsr_prepare_resamples (interp : Interp) (img : Img8) (f : ℕ) :
    (edsr_luma_input interp img f).height = img.height * f ∧
    (edsr_luma_input interp img f).width = img.width * f ∧
    edsr_luma_input interp img f =
      resizeByFactor interp (channelPlane (cvtBGR2YCrCb (normalize img)) 0) f :=
  ⟨rfl, rfl, rfl⟩

/-- Claim C2 (counterexample): with a backend returning a `3 × 3` plane
for a `2 × 2` input, `srcnn_predict`'s chroma planes stay at
factor×original (`2 × 2`), differing from the luma plane's actual
post-inference shape (`3 × 3`), and the pipeline errors at
concatenation — so not every strategy resamples chroma to the luma's
actual post-inference shape. -/
theorem srcnn_chroma_not_matched_to_luma :
    (srcnn_Y constInterp stub3x3Backend testImg 2).height = 3 ∧
    (srcnn_Cr constInterp testImg 2).height = 2 ∧
    srcnn_predict constInterp stub3x3Backend testFs "img.png" 2 = .error .valueError :=
  ⟨rfl, rfl, rfl⟩

/-- Claim C2 (amended): only the EDSR path resamples chroma to the
inferred luma plane's actual shape (and does so for every backend);
SRCNN and VDSR resample chroma to factor×original size, so their three
planes share identical dimensions only when the backend preserves its
input shape. -/
theorem chroma_resampling_per_strategy (interp : Interp) (model model2 : Backend)
    (img : Img8) (f : ℕ)
    (hpres : ∀ p : Plane, (model2 p).height = p.height ∧ (model2 p).width = p.width) :
    ((edsr_Cr interp model img f).height = (edsr_Y interp model img f).height ∧
     (edsr_Cr interp model img f).width = (edsr_Y interp model img f).width ∧
     (edsr_Cb interp model img f).height = (edsr_Y interp model img f).height ∧
     (edsr_Cb interp model img f).width = (edsr_Y interp model img f).width) ∧
    ((srcnn_Cr interp img f).height = img.height * f ∧
     (srcnn_Cr interp img f).width = img.width * f ∧
     (srcnn_Cb interp img f).height = img.height * f ∧
     (srcnn_Cb interp img f).width = img.width * f) ∧
    ((srcnn_Y interp model2 img f).height = (srcnn_Cr interp img f).height ∧
     (srcnn_Y interp model2 img f).width = (srcnn_Cr interp img f).width ∧
     (srcnn_Y interp model2 img f).height = (srcnn_Cb interp img f).height ∧
     (srcnn_Y interp model2 img f).width = (srcnn_Cb interp img f).width) := by
  refine ⟨⟨rfl, rfl, rfl, rfl⟩, ⟨rfl, rfl, rfl, rfl⟩, ?_, ?_, ?_, ?_⟩
  · exact (hpres _).1
  · exact (hpres _).2
  · exact (hpres _).1
  · exact (hpres _).2

/-- Witness for `chroma_resampling_per_strategy` at concrete inputs. -/
theorem chroma_resampling_per_strategy_witness :
    (edsr_Cr constInterp idBackend testImg 2).height =
      (edsr_Y constInterp idBackend testImg 2).height ∧
    (srcnn_Y constInterp idBackend testImg 2).height =
      (srcnn_Cr constInterp testImg 2).height :=
  ⟨(chroma_resampling_per_strategy constInterp idBackend idBackend testImg 2
      (fun _ => ⟨rfl, rfl⟩)).1.1,
   (chroma_resampling_per_strategy constInterp idBackend idBackend testImg 2
      (fun _ => ⟨rfl, rfl⟩)).2.2.1⟩

/-- Claim C3 (counterexample): with a shape-preserving backend whose
outputs are the constant 2, the luma value entering `srcnn_predict`'s
recombination is 2, outside `[0,1]` — the SRCNN path applies no clip
after inference. -/
theorem srcnn_inference_not_clipped :
    (srcnn_HR_YCrCb constInterp hotBackend testImg 2).map (fun a => a.chan 0 0 0) =
      some 2 ∧
    ¬ ((2 : ℚ) ≤ 1) := ⟨rfl, by norm_num⟩

/-- Claim C3 (amended): only the EDSR strategy clips its inference
result to `[0,1]` before chroma resampling and recombination; SRCNN and
VDSR pass the backend's raw output unchanged into recombination (only
the final image is clipped, to `[0,255]`). -/
theorem clip_only_in_edsr (interp : Interp) (model : Backend) (img : Img8)
    (f i j : ℕ) :
    (0 ≤ (edsr_Y interp model img f).val i j ∧
      (edsr_Y interp model img f).val i j ≤ 1) ∧
    (srcnn_Y interp model img f).val i j =
      (model (srcnn_prepared interp img f)).val i j ∧
    (vdsr_Y interp model img f).val i j =
      (model (vdsr_prepared interp img f)).val i j := by
  refine ⟨⟨le_max_left _ _, max_le (by norm_num) (min_le_left _ _)⟩, rfl, rfl⟩

/-- Claim C4 (counterexample): with a backend returning a `3 × 3` plane
for a `2 × 2` input, both PreUpscaledLuma pipelines fail — but with the
untyped concatenation `ValueError`, not with the `ShapeMismatch` kind. -/
theorem shape_mismatch_is_untyped_error :
    srcnn_predict constInterp stub3x3Backend testFs "img.png" 2 =
      .error .valueError ∧
    vdsr_predict constInterp stub3x3Backend testFs "img.png" 2 =
      .error .valueError ∧
    PyError.valueError ≠ PyError.ShapeMismatch := ⟨rfl, rfl, by decide⟩

/-- Claim C4 (amended): whenever a PreUpscaledLuma backend's output
shape differs from its input shape, `srcnn_predict` and `vdsr_predict`
fail — not with a tagged `ShapeMismatch`, but with the uncaught numpy
`ValueError` raised by `np.concatenate` on the mismatched planes. -/
theorem mismatched_backend_gives_valueError (interp : Interp) (model : Backend)
    (fs : String → Option Img8) (path : String) (img : Img8) (f : ℕ)
    (hfs : fs path = some img)
    (hmis : (model (srcnn_prepared interp img f)).height ≠ img.height * f ∨
            (model (srcnn_prepared interp img f)).width ≠ img.width * f) :
    srcnn_predict interp model fs path f = .error .valueError ∧
    vdsr_predict interp model fs path f = .error .valueError := by
  have hnone : srcnn_HR_YCrCb interp model img f = none := by
    unfold srcnn_HR_YCrCb concat3
    rw [if_neg]
    intro hc
    rcases hmis with hm | hm
    · exact hm hc.1
    · exact hm hc.2.1
  have hs : srcnn_predict interp model fs path f = .error .valueError := by
    unfold srcnn_predict
    rw [hfs]
    dsimp only
    rw [hnone]
  exact ⟨hs, hs⟩

/-- Witness for `mismatched_backend_gives_valueError` at concrete inputs. -/
theorem mismatched_backend_gives_valueError_witness :
    srcnn_predict constInterp stub3x3Backend testFs "img.png" 2 =
      .error .valueError ∧
    vdsr_predict constInterp stub3x3Backend testFs "img.png" 2 =
      .error .valueError :=
  mismatched_backend_gives_valueError constInterp stub3x3Backend testFs "img.png"
    testImg 2 rfl (Or.inl (by decide))

/-- Claim C6 (confirmed): for the PreUpscaledLuma strategies (SRCNN and
VDSR), with a decodable `h × w` source, a positive factor `f`, and a
backend that preserves its input shape, the pipeline succeeds and the
upscaled image has dimensions exactly `(h·f) × (w·f)`. -/
theorem preupscaled_dimension_law (interp : Interp) (model : Backend)
    (fs : String → Option Img8) (path : String) (img : Img8) (f : ℕ)
    (hf : 0 < f) (hfs : fs path = some img)
    (hpres : ∀ p : Plane, (model p).height = p.height ∧ (model p).width = p.width) :
    ∃ up : Img8,
      srcnn_predict interp model fs path f = .ok (img, up) ∧
      vdsr_predict interp model fs path f = .ok (img, up) ∧
      up.height = img.height * f ∧ up.width = img.width * f := by
  have hYh : (srcnn_Y interp model img f).height = img.height * f := (hpres _).1
  have hYw : (srcnn_Y interp model img f).width = img.width * f := (hpres _).2
  have hsome : srcnn_HR_YCrCb interp model img f =
      some ⟨(srcnn_Y interp model img f).height, (srcnn_Y interp model img f).width,
        fun i j c =>
          if c = 0 then (srcnn_Y interp model img f).val i j
          else if c = 1 then (srcnn_Cr interp img f).val i j
          else (srcnn_Cb interp img f).val i j⟩ := by
    unfold srcnn_HR_YCrCb concat3
    rw [if_pos]
    exact ⟨hYh, hYw, hYh, hYw⟩
  have hs := srcnn_predict_eq_ok interp model fs path img _ f hfs hsome
  exact ⟨_, hs, hs, hYh, hYw⟩

/-- Witness for `preupscaled_dimension_law` at concrete inputs. -/
theorem preupscaled_dimension_law_witness :
    ∃ up : Img8,
      srcnn_predict constInterp idBackend testFs "img.png" 2 = .ok (testImg, up) ∧
      vdsr_predict constInterp idBackend testFs "img.png" 2 = .ok (testImg, up) ∧
      up.height = testImg.height * 2 ∧ up.width = testImg.width * 2 :=
  preupscaled_dimension_law constInterp idBackend testFs "img.png" testImg 2
    (by norm_num) rfl (fun _ => ⟨rfl, rfl⟩)

/-- Claim C7 (confirmed): whenever `upscale_image` succeeds — under any
strategy, backends, kernel and source — every pixel of the upscaled
image is an integer in `[0,255]`, regardless of intermediate inference
values outside `[0,1]`. -/
theorem output_range_invariant (interp : Interp) (m1 m2 m3 : Backend)
    (fs : String → Option Img8) (ip : Option String) (sel : String) (o u : Img8)
    (h : upscale_image interp m1 m2 m3 fs ip sel = .ok (o, u)) (i j c : ℕ) :
    0 ≤ u.chan i j c ∧ u.chan i j c ≤ 255 := by
  cases ip with
  | none => exact absurd h (by simp [upscale_image])
  | some path =>
    unfold upscale_image at h
    dsimp only at h
    by_cases h1 : sel = "srcnn"
    · rw [if_pos h1] at h
      obtain ⟨img, hr, _, _, _, hu⟩ := srcnn_predict_ok_iff _ _ _ _ _ _ _ h
      rw [hu]
      exact finalizeImg_chan_mem _ i j c
    · rw [if_neg h1] at h
      by_cases h2 : sel = "edsr"
      · rw [if_pos h2] at h
        obtain ⟨img, hr, _, _, _, hu⟩ := edsr_predict_ok_iff _ _ _ _ _ _ _ h
        rw [hu]
        exact finalizeImg_chan_mem _ i j c
      · rw [if_neg h2] at h
        by_cases h3 : sel = "vdsr"
        · rw [if_pos h3] at h
          obtain ⟨img, hr, _, _, _, hu⟩ := srcnn_predict_ok_iff interp m2 fs path 2 o u h
          rw [hu]
          exact finalizeImg_chan_mem _ i j c
        · rw [if_neg h3] at h
          exact absurd h (by simp)

/-- Witness for `output_range_invariant` on a concrete successful run. -/
theorem output_range_invariant_witness :
    0 ≤ testRunImage.chan 0 0 0 ∧ testRunImage.chan 0 0 0 ≤ 255 :=
  output_range_invariant constInterp idBackend idBackend idBackend testFs
    (some "img.png") "srcnn" testImg testRunImage rfl 0 0 0

/-- Claim C8 (confirmed): invoking the app's upscale with a selector
string that is none of `"srcnn"`, `"edsr"`, `"vdsr"` hits the
invalid-model warning branch — the spec's `UnknownStrategy` — and
produces no partial image; the result is the same for every backend and
filesystem, so no model is consulted and no inference runs. -/
theorem unknown_strategy_rejected (interp : Interp) (m1 m2 m3 : Backend)
    (fs : String → Option Img8) (path sel : String)
    (h1 : sel ≠ "srcnn") (h2 : sel ≠ "edsr") (h3 : sel ≠ "vdsr") :
    upscale_image interp m1 m2 m3 fs (some path) sel = .error .UnknownStrategy := by
  unfold upscale_image
  dsimp only
  rw [if_neg h1, if_neg h2, if_neg h3]

/-- Witness for `unknown_strategy_rejected` at the selector `"bogus"`. -/
theorem unknown_strategy_rejected_witness :
    upscale_image constInterp idBackend idBackend idBackend testFs
      (some "img.png") "bogus" = .error .UnknownStrategy :=
  unknown_strategy_rejected constInterp idBackend idBackend idBackend testFs
    "img.png" "bogus" (by decide) (by decide) (by decide)

/-- Claim C9 (counterexample): upscaling a path that no decoder can
read fails with the uncaught `AttributeError` raised when `cv2.imread`
returns `None` — not with the tagged `DecodeError` kind. -/
theorem decode_failure_is_attributeError :
    upscale_image constInterp idBackend idBackend idBackend emptyFs
      (some "/nonexistent.png") "srcnn" = .error .attributeError ∧
    PyError.attributeError ≠ PyError.DecodeError := ⟨rfl, by decide⟩

/-- Claim C9 (amended): for every known strategy, an undecodable source
path makes the pipeline abort with the uncaught `AttributeError` from
using the `None` that `cv2.imread` returned (no tagged `DecodeError`
exists in the code); no partial image is produced. -/
theorem undecodable_source_uncaught (interp : Interp) (m1 m2 m3 : Backend)
    (fs : String → Option Img8) (path sel : String)
    (hfs : fs path = none)
    (hsel : sel = "srcnn" ∨ sel = "edsr" ∨ sel = "vdsr") :
    upscale_image interp m1 m2 m3 fs (some path) sel = .error .attributeError := by
  unfold upscale_image
  dsimp only
  rcases hsel with h | h | h
  · rw [if_pos h]
    unfold srcnn_predict
    rw [hfs]
  · subst h
    rw [if_neg (by decide), if_pos rfl]
    unfold edsr_predict
    rw [hfs]
  · subst h
    rw [if_neg (by decide), if_neg (by decide), if_pos rfl]
    unfold vdsr_predict
    rw [hfs]

/-- Witness for `undecodable_source_uncaught` at concrete inputs. -/
theorem undecodable_source_uncaught_witness :
    upscale_image constInterp idBackend idBackend idBackend emptyFs
      (some "a.png") "edsr" = .error .attributeError :=
  undecodable_source_uncaught constInterp idBackend idBackend idBackend emptyFs
    "a.png" "edsr" rfl (Or.inr (Or.inl rfl))

/-- Claim C5 (confirmed): for every normalized 3-channel image (all
channel values in `[0,1]`), converting to luma/chroma and back
reconstructs each of the three channels within `1/1000`. -/
theorem color_roundtrip (a : ImgF)
    (hb : ∀ i j c, 0 ≤ a.chan i j c ∧ a.chan i j c ≤ 1) (i j c : ℕ) (hc : c < 3) :
    |(cvtYCrCb2BGR (cvtBGR2YCrCb a)).chan i j c - a.chan i j c| ≤ 1/1000 := by
  obtain ⟨hB0, hB1⟩ := hb i j 0
  obtain ⟨hG0, hG1⟩ := hb i j 1
  obtain ⟨hR0, hR1⟩ := hb i j 2
  interval_cases c <;>
  · simp only [cvtYCrCb2BGR, cvtBGR2YCrCb]
    norm_num
    rw [abs_le]
    constructor <;> linarith

/-- Witness for `color_roundtrip` on the mid-gray image. -/
theorem color_roundtrip_witness :
    |(cvtYCrCb2BGR (cvtBGR2YCrCb halfImgF)).chan 0 0 1 - halfImgF.chan 0 0 1| ≤
      1/1000 :=
  color_roundtrip halfImgF
    (fun _ _ _ => ⟨by norm_num [halfImgF], by norm_num [halfImgF]⟩) 0 0 1
    (by norm_num)

end SRPipeline
